import Mathlib

/-!
Shallow embedding of the resume-maker backend (`backend/app.py`) and proofs
about its heuristic text-processing endpoints.

Modelling conventions:
* Python `str` is `String`; `str.lower()` is `String.toLower` (ASCII case
  mapping, which agrees with Python on all inputs used by concrete claims).
* Python integers are `Int` / `Nat`; the one floating-point quantity in the
  source (the ATS `match_rate`) is modelled exactly over the rationals via
  `Nat` floor division, which agrees with `int(70 + match_rate * 30)` for
  exact arithmetic.
* Python `x or default` on an optional string is `pyOrOpt`; truthiness of an
  optional string is `pyTruthy`.
* Endpoints that can answer an HTTP error are `Except (Nat × String) _`,
  the error carrying status code and message.
-/

/-- Python `s.split()` with no separator: split on whitespace runs, dropping
empty fragments. (Stated over the character list so that the kernel can
evaluate it; `String.split` is position-based and does not reduce.) -/
def pySplit (s : String) : List String :=
  ((s.toList.splitOnP Char.isWhitespace).filter (fun t => !t.isEmpty)).map String.mk

/-- Python `s.lower()` (ASCII case mapping, as in `String.toLower`). -/
def pyLower (s : String) : String := String.mk (s.toList.map Char.toLower)

/-- Python `s.strip()`: remove leading and trailing whitespace. -/
def pyStrip (s : String) : String :=
  String.mk (((s.toList.dropWhile Char.isWhitespace).reverse.dropWhile
    Char.isWhitespace).reverse)

/-- Python `s[:n]` on a string: the first `n` characters. -/
def pyTake (s : String) (n : Nat) : String := String.mk (s.toList.take n)

/-- Python `s.split(c)` for a one-character separator `c`. -/
def splitChar (c : Char) (s : String) : List String :=
  (s.toList.splitOnP (fun a => a = c)).map String.mk

/-- Prefix test on character lists (helper for substring containment). -/
def charListIsPre : List Char → List Char → Bool
  | [], _ => true
  | _ :: _, [] => false
  | a :: as, b :: bs => a = b && charListIsPre as bs

/-- Does `needle` occur as a contiguous run inside the second list? -/
def charListSub (needle : List Char) : List Char → Bool
  | [] => charListIsPre needle []
  | b :: bs => charListIsPre needle (b :: bs) || charListSub needle bs

/-- Python `needle in hay` substring containment on strings. -/
def strContainsSub (hay needle : String) : Bool :=
  charListSub needle.toList hay.toList

/-- Python truthiness of an optional string: `None` and `""` are falsy. -/
def pyTruthy : Option String → Bool
  | none => false
  | some s => !(s == "")

/-- Python `x or default` for an optional string `x`. -/
def pyOrOpt (v : Option String) (d : String) : String :=
  match v with
  | none => d
  | some s => if s == "" then d else s

/-- Python `x or default` for a plain string `x`. -/
def pyOrStr (s d : String) : String := if s == "" then d else s

/-! ## ATS scorer (`analyze_ats`, app.py lines 521-558) -/

/-- `set(s.lower().split())` — the set of lowercased whitespace tokens. -/
def word_set (s : String) : Finset String := (pySplit (pyLower s)).toFinset

/-- The score contribution `int(match_rate * 30)` where
`match_rate = |job_words ∩ resume_words| / |job_words|` (0 when `job_words`
is empty), computed exactly over the rationals. -/
def ats_match_bonus (resume_text job_description : String) : Nat :=
  if (word_set job_description).card = 0 then 0
  else (30 * ((word_set job_description) ∩ (word_set resume_text)).card) /
    (word_set job_description).card

/-- The condition `match_rate < 0.3` guarding the keyword suggestion
(true when `job_words` is empty, since then `match_rate = 0`). -/
def ats_low_match (resume_text job_description : String) : Bool :=
  if (word_set job_description).card = 0 then true
  else 10 * ((word_set job_description) ∩ (word_set resume_text)).card <
    3 * (word_set job_description).card

/-- `any(word in resume_text.lower() for word in ['experience', 'education', 'skills'])`. -/
def ats_has_header (resume_text : String) : Bool :=
  ["experience", "education", "skills"].any
    (fun w => strContainsSub (pyLower resume_text) w)

/-- The score before the length/header deductions: 75 without a job
description, `int(70 + match_rate * 30)` with one. -/
def ats_base_score (resume_text job_description : String) : Int :=
  if job_description = "" then 75
  else 70 + (ats_match_bonus resume_text job_description : Int)

/-- The score after both deductions, before the final `[0,100]` clamp. -/
def ats_raw_score (resume_text job_description : String) : Int :=
  ats_base_score resume_text job_description
    - (if resume_text.length < 300 then 10 else 0)
    - (if ats_has_header resume_text then 0 else 15)

/-- The suggestion list, in the order the source appends. -/
def ats_suggestions (resume_text job_description : String) : List String :=
  (if job_description ≠ "" then
    (if ats_low_match resume_text job_description then
      ["Add more keywords from the job description"] else [])
   else [])
  ++ (if resume_text.length < 300 then
      ["Resume seems too short. Add more detail."] else [])
  ++ (if ats_has_header resume_text then []
      else ["Include standard section headers"])

/-- Response body of `/api/analyze/ats`. -/
structure ATSResult where
  score : Int
  suggestions : List String
  status : String
deriving DecidableEq

/-- `analyze_ats`: the returned score is clamped with `max(0, min(100, score))`;
the status is computed from the unclamped score. -/
def analyze_ats (resume_text job_description : String) : ATSResult :=
  { score := max 0 (min 100 (ats_raw_score resume_text job_description))
  , suggestions := ats_suggestions resume_text job_description
  , status := if 70 ≤ ats_raw_score resume_text job_description then "good"
              else "needs_improvement" }

/-! ## Deterministic fallback generator
(`AIContentGenerator.generate_mock_content`, app.py lines 182-255) -/

/-- `ResumeRequest` dataclass. -/
structure ResumeRequest where
  role : String
  company : Option String := none
  keywords : Option String := none
  experience_level : String := "mid"
  industry : Option String := none
  tone : String := "professional"
deriving DecidableEq

/-- `ResumeContent` dataclass (`achievements` is always set by the mock path). -/
structure ResumeContent where
  summary : String
  experience_bullets : List String
  skills : List String
  achievements : List String
deriving DecidableEq

/-- One entry of the per-level `templates` dict in `generate_mock_content`. -/
structure MockTemplate where
  summary : String
  bullets : List String
deriving DecidableEq

/-- `generate_mock_content`: the deterministic templated fallback. -/
def generate_mock_content (req : ResumeRequest) : ResumeContent :=
  let role := pyOrStr req.role "Professional"
  let level := req.experience_level
  let juniorT : MockTemplate :=
    { summary := "Motivated " ++ role ++ " with strong foundation in " ++
        pyOrOpt req.keywords "modern technologies" ++
        ". Eager to contribute to innovative projects and grow expertise in a collaborative environment."
    , bullets :=
        [ "Developed and maintained features using " ++
            pyOrOpt req.keywords "industry-standard tools"
        , "Collaborated with senior developers to implement best practices"
        , "Participated in code reviews and technical documentation"
        , "Assisted in debugging and resolving technical issues"
        , "Completed all assigned tasks on schedule" ] }
  let midT : MockTemplate :=
    { summary := "Experienced " ++ role ++ " with proven track record in " ++
        pyOrOpt req.industry "technology" ++ ". Skilled in " ++
        pyOrOpt req.keywords "full-stack development" ++
        " with focus on quality and performance."
    , bullets :=
        [ "Led development of key features using " ++
            pyOrOpt req.keywords "modern tech stack"
        , "Mentored junior developers and conducted code reviews"
        , "Architected scalable solutions handling 10K+ users"
        , "Collaborated with product managers on requirements"
        , "Improved deployment efficiency by 40%" ] }
  let seniorT : MockTemplate :=
    { summary := "Senior " ++ role ++ " with extensive expertise in " ++
        pyOrOpt req.keywords "enterprise solutions" ++
        ". Proven leader in driving technical innovation and delivering complex projects."
    , bullets :=
        [ "Architected enterprise solutions using " ++
            pyOrOpt req.keywords "cloud technologies"
        , "Led team of 8+ developers delivering critical projects"
        , "Established coding standards adopted organization-wide"
        , "Reduced operational costs by 35% through optimization"
        , "Presented strategies to C-level executives" ] }
  let execT : MockTemplate :=
    { summary := "Visionary technology executive and " ++ role ++
        " with track record of transformation. Expert in " ++
        pyOrOpt req.keywords "digital innovation" ++ " and team building."
    , bullets :=
        [ "Directed technology strategy driving 50% efficiency increase"
        , "Built engineering organization from 10 to 100+ professionals"
        , "Secured $10M+ in cost savings through optimization"
        , "Launched products generating $25M+ revenue"
        , "Established strategic technology partnerships" ] }
  -- templates.get(level, templates["mid"])
  let template : MockTemplate :=
    match level with
    | "junior" => juniorT
    | "mid" => midT
    | "senior" => seniorT
    | "executive" => execT
    | _ => midT
  let base_skills : List String :=
    [ "Python", "JavaScript", "React", "Node.js", "AWS", "Docker"
    , "Git", "Agile", "Leadership", "Communication" ]
  let skills : List String :=
    if pyTruthy req.keywords then
      ((splitChar ',' (req.keywords.getD "")).map pyStrip).take 5 ++
        base_skills.take 5
    else base_skills
  let achievements : List String :=
    [ "Increased team productivity by 25%"
    , "Delivered " ++ (if level == "junior" then "5" else "15") ++
        "+ successful projects"
    , "Received excellence award for outstanding performance" ]
  { summary := template.summary
  , experience_bullets := template.bullets
  , skills := skills
  , achievements := achievements }

/-! ## Skill suggestion (`suggest_skills`, app.py lines 488-519) -/

/-- The `skill_map` dict, in insertion order. -/
def skill_map : List (String × List String) :=
  [ ("software", ["Python", "JavaScript", "React", "Node.js", "Git", "Docker", "AWS"])
  , ("data", ["Python", "SQL", "Pandas", "NumPy", "Tableau", "Machine Learning"])
  , ("design", ["Figma", "Adobe Creative Suite", "UI/UX", "Wireframing"])
  , ("marketing", ["SEO", "Google Analytics", "Content Strategy", "Social Media"])
  , ("default", ["Communication", "Problem Solving", "Leadership", "Teamwork"]) ]

/-- `suggest_skills`: first category whose key occurs in the lowercased role
(falling back to the `"default"` entry), minus skills already present,
truncated to 10. -/
def suggest_skills (role : String) (current_skills : List String) : List String :=
  (((match skill_map.find? (fun p => strContainsSub (pyLower role) p.1) with
     | some p => p.2
     | none => (List.lookup "default" skill_map).getD []) : List String).filter
      (fun s => decide (s ∉ current_skills))).take 10

/-! ## Resume templates and PDF export (`RESUME_TEMPLATES`, `export_pdf`,
app.py lines 268-329 and 451-478). Literal braces of the source strings are
written `\x7b`/`\x7d`; the source file's bullet separator is the literal
three-character sequence U+00E2 U+20AC U+00A2. -/

/-- The `"modern"` template string. -/
def modern_template : String := String.intercalate "\n"
  [ ""
  , "    <!DOCTYPE html>"
  , "    <html>"
  , "    <head>"
  , "        <style>"
  , "            body \x7b font-family: \x27Segoe UI\x27, Arial, sans-serif; margin: 40px; color: #333; \x7d"
  , "            h1 \x7b color: #2563eb; border-bottom: 3px solid #2563eb; padding-bottom: 10px; \x7d"
  , "            h2 \x7b color: #1e40af; margin-top: 25px; text-transform: uppercase; font-size: 14px; \x7d"
  , "            .section \x7b margin-bottom: 25px; \x7d"
  , "            ul \x7b margin-left: 20px; \x7d"
  , "        </style>"
  , "    </head>"
  , "    <body>"
  , "        <h1>\x7b\x7b name \x7d\x7d</h1>"
  , "        <div>\x7b\x7b email \x7d\x7d | \x7b\x7b phone \x7d\x7d | \x7b\x7b location \x7d\x7d</div>"
  , "        <div class=\"section\">"
  , "            <h2>Professional Summary</h2>"
  , "            <p>\x7b\x7b summary \x7d\x7d</p>"
  , "        </div>"
  , "        <div class=\"section\">"
  , "            <h2>Experience</h2>"
  , "            <ul>"
  , "            \x7b% for bullet in experience_bullets %\x7d"
  , "                <li>\x7b\x7b bullet \x7d\x7d</li>"
  , "            \x7b% endfor %\x7d"
  , "            </ul>"
  , "        </div>"
  , "        <div class=\"section\">"
  , "            <h2>Skills</h2>"
  , "            <p>\x7b\x7b skills | join(\x27 â€¢ \x27) \x7d\x7d</p>"
  , "        </div>"
  , "    </body>"
  , "    </html>"
  , "    " ]

/-- The `"classic"` template string. -/
def classic_template : String := String.intercalate "\n"
  [ ""
  , "    <!DOCTYPE html>"
  , "    <html>"
  , "    <head>"
  , "        <style>"
  , "            body \x7b font-family: Georgia, serif; margin: 40px; \x7d"
  , "            h1 \x7b text-align: center; \x7d"
  , "            h2 \x7b border-bottom: 1px solid #000; \x7d"
  , "        </style>"
  , "    </head>"
  , "    <body>"
  , "        <h1>\x7b\x7b name \x7d\x7d</h1>"
  , "        <div style=\"text-align: center;\">\x7b\x7b email \x7d\x7d â€¢ \x7b\x7b phone \x7d\x7d</div>"
  , "        <h2>Summary</h2>"
  , "        <p>\x7b\x7b summary \x7d\x7d</p>"
  , "        <h2>Experience</h2>"
  , "        <ul>"
  , "        \x7b% for bullet in experience_bullets %\x7d"
  , "            <li>\x7b\x7b bullet \x7d\x7d</li>"
  , "        \x7b% endfor %\x7d"
  , "        </ul>"
  , "        <h2>Skills</h2>"
  , "        <p>\x7b\x7b skills | join(\x27, \x27) \x7d\x7d</p>"
  , "    </body>"
  , "    </html>"
  , "    " ]

/-- The `RESUME_TEMPLATES` dict, in insertion order. -/
def RESUME_TEMPLATES : List (String × String) :=
  [("modern", modern_template), ("classic", classic_template)]

/-- `RESUME_TEMPLATES.get(template_name, RESUME_TEMPLATES['modern'])`. -/
def select_template (template_name : String) : String :=
  (List.lookup template_name RESUME_TEMPLATES).getD modern_template

/-- The HTML produced by `/api/export/pdf` before document conversion:
`Template(template).render(**data)` applied to the selected template.
The Jinja2 engine is an external library, so the rendering step is an
abstract function `render` of the template string (the request's field
map is folded into `render`). -/
def export_pdf_html (render : String → String) (template_name : String) : String :=
  render (select_template template_name)

/-! ## Heuristic field extraction, summary part
(`extract_from_document`, app.py lines 638-648 and 661-663) -/

/-- `summary_keywords = ['summary', 'objective', 'profile', 'about']`. -/
def summary_keywords : List String := ["summary", "objective", "profile", "about"]

/-- `any(keyword in line.lower() for keyword in summary_keywords)`. -/
def is_summary_header (line : String) : Bool :=
  summary_keywords.any (fun k => strContainsSub (pyLower line) k)

/-- Index of the first line matched by `is_summary_header`
(the `for i, line in enumerate(lines)` scan with `break`). -/
def find_summary_idx : List String → Option Nat
  | [] => none
  | l :: ls =>
    if is_summary_header l then some 0
    else (find_summary_idx ls).map (· + 1)

/-- `[lines[j].strip() for j in window if lines[j].strip()]` over a window. -/
def strip_nonblank (ls : List String) : List String :=
  ls.filterMap (fun l => if pyStrip l = "" then none else some (pyStrip l))

/-- The stripped non-empty lines among `lines[i+1 : min(i+4, len(lines))]`. -/
def summary_window (lines : List String) (i : Nat) : List String :=
  strip_nonblank ((lines.drop (i + 1)).take 3)

/-- The summary field produced by the heuristic extraction path:
keyword-section scan, else (or when that yields the empty string) the first
100 whitespace tokens of the whole text. -/
def extract_summary (content : String) : String :=
  let lines := splitChar '\n' content
  let found : String :=
    match find_summary_idx lines with
    | some i => pyTake (String.intercalate " " (summary_window lines i)) 500
    | none => ""
  if found = "" then String.intercalate " " ((pySplit content).take 100)
  else found

/-! ## Endpoint validation (`generate_content` app.py lines 404-429,
`extract_from_document` app.py lines 560-569) -/

/-- The JSON body of `POST /api/generate`, each field as `data.get` sees it:
`none` when the key is absent. -/
structure GenerateBody where
  role : Option String := none
  company : Option String := none
  keywords : Option String := none
  experience_level : Option String := none
  industry : Option String := none
  tone : Option String := none
deriving DecidableEq

/-- `/api/generate` with no provider configured: 400 with a static message
when `data.get('role')` is falsy, otherwise the deterministic fallback
content for the constructed `ResumeRequest`. -/
def generate_content (data : GenerateBody) : Except (Nat × String) ResumeContent :=
  -- if not data.get('role'): return jsonify({"error": "Role is required"}), 400
  if pyTruthy data.role = false then Except.error (400, "Role is required")
  else Except.ok (generate_mock_content
    { role := data.role.getD ""
    , company := data.company
    , keywords := data.keywords
    , experience_level := data.experience_level.getD "mid"
    , industry := data.industry
    , tone := data.tone.getD "professional" })

/-- `/api/extract` with no provider configured: 400 with a static message
when `data.get('content', '')` is falsy, otherwise the heuristic extraction
succeeds; the success value carries the summary field, the component of the
extracted profile formalised here. -/
def extract_from_document (content : Option String) : Except (Nat × String) String :=
  if pyTruthy content = false then Except.error (400, "No content provided")
  else Except.ok (extract_summary (content.getD ""))

/-! ## Theorems -/

theorem ats_match_bonus_le (rt jd : String) : ats_match_bonus rt jd ≤ 30 := by
  unfold ats_match_bonus
  split_ifs with h
  · omega
  · have hkn : ((word_set jd) ∩ (word_set rt)).card ≤ (word_set jd).card :=
      Finset.card_le_card Finset.inter_subset_left
    have h1 : 30 * ((word_set jd) ∩ (word_set rt)).card ≤ 30 * (word_set jd).card :=
      Nat.mul_le_mul_left 30 hkn
    calc 30 * ((word_set jd) ∩ (word_set rt)).card / (word_set jd).card
        ≤ 30 * (word_set jd).card / (word_set jd).card := Nat.div_le_div_right h1
      _ = 30 := Nat.mul_div_cancel 30 (Nat.pos_of_ne_zero h)

theorem ats_base_bounds (rt jd : String) :
    70 ≤ ats_base_score rt jd ∧ ats_base_score rt jd ≤ 100 := by
  have h := ats_match_bonus_le rt jd
  unfold ats_base_score
  split_ifs
  · constructor <;> norm_num
  · constructor <;> omega

theorem ats_raw_bounds (rt jd : String) :
    45 ≤ ats_raw_score rt jd ∧ ats_raw_score rt jd ≤ 100 := by
  have hb := ats_base_bounds rt jd
  unfold ats_raw_score
  split_ifs <;> omega

theorem ats_clamp_id (rt jd : String) :
    max 0 (min 100 (ats_raw_score rt jd)) = ats_raw_score rt jd := by
  have hb := ats_raw_bounds rt jd
  rw [min_eq_right hb.2, max_eq_right (le_trans (by norm_num) hb.1)]

/-- C1 (counterexample): on resume text `"short text"` with an empty job
description the analyzer does not return score 65 — the claim omits the
15-point deduction for missing section headers. -/
theorem claim_C1_counterexample :
    ¬ ((analyze_ats "short text" "").score = 65
       ∧ "Resume seems too short. Add more detail." ∈
           (analyze_ats "short text" "").suggestions
       ∧ (analyze_ats "short text" "").status = "needs_improvement") := by
  decide

/-- C1 (amended): for resume text `"short text"` and an empty job description
the returned score is 50 (75 base, minus 10 for length < 300, minus 15 for no
standard section header), the suggestions are the length suggestion followed
by the section-header suggestion, and the status is `"needs_improvement"`. -/
theorem claim_C1 :
    (analyze_ats "short text" "").score = 50
    ∧ (analyze_ats "short text" "").suggestions =
        [ "Resume seems too short. Add more detail."
        , "Include standard section headers" ]
    ∧ (analyze_ats "short text" "").status = "needs_improvement" := by
  decide

/-- C2: for every resume text and job description (empty strings included)
the returned ATS score lies in the closed interval `[0, 100]` (the score is an
integer by construction of the model). -/
theorem claim_C2 (rt jd : String) :
    0 ≤ (analyze_ats rt jd).score ∧ (analyze_ats rt jd).score ≤ 100 := by
  unfold analyze_ats
  dsimp only
  constructor
  · exact le_max_left 0 _
  · exact max_le (by norm_num) (min_le_left 100 _)

/-- C3: for every input pair the returned status is `"good"` iff the returned
score is at least 70 (so score 70 yields `"good"` and 69 yields
`"needs_improvement"`). -/
theorem claim_C3 (rt jd : String) :
    (analyze_ats rt jd).status = "good" ↔ 70 ≤ (analyze_ats rt jd).score := by
  unfold analyze_ats
  dsimp only
  rw [ats_clamp_id]
  split_ifs with h
  · exact ⟨fun _ => h, fun _ => rfl⟩
  · exact ⟨fun hst => absurd hst (by decide), fun hs => absurd hs h⟩

/-- C10: the pre-clamp ATS score always lies in `[45, 100]`, so the clamp
never alters the returned score, and the status (computed from the unclamped
score) agrees with the returned score against the 70 threshold. -/
theorem claim_C10 (rt jd : String) :
    (45 ≤ ats_raw_score rt jd ∧ ats_raw_score rt jd ≤ 100)
    ∧ (analyze_ats rt jd).score = ats_raw_score rt jd
    ∧ ((analyze_ats rt jd).status = "good" ↔ 70 ≤ (analyze_ats rt jd).score) := by
  refine ⟨ats_raw_bounds rt jd, ?_, ?_⟩
  · unfold analyze_ats
    dsimp only
    exact ats_clamp_id rt jd
  · unfold analyze_ats
    dsimp only
    rw [ats_clamp_id]
    split_ifs with h
    · exact ⟨fun _ => h, fun _ => rfl⟩
    · exact ⟨fun hst => absurd hst (by decide), fun hs => absurd hs h⟩

/-- C4: the deterministic fallback generator depends on nothing but the six
request fields — two requests that agree on role, company, keywords,
experience level, industry and tone produce identical content. -/
theorem claim_C4 (r1 r2 : ResumeRequest)
    (hrole : r1.role = r2.role) (hcomp : r1.company = r2.company)
    (hkw : r1.keywords = r2.keywords)
    (hlvl : r1.experience_level = r2.experience_level)
    (hind : r1.industry = r2.industry) (htone : r1.tone = r2.tone) :
    generate_mock_content r1 = generate_mock_content r2 := by
  obtain ⟨a1, b1, c1, d1, e1, f1⟩ := r1
  obtain ⟨a2, b2, c2, d2, e2, f2⟩ := r2
  dsimp only at hrole hcomp hkw hlvl hind htone
  subst hrole hcomp hkw hlvl hind htone
  rfl

/-- Witness for C4 at a concrete pair of equal requests. -/
theorem claim_C4_witness :
    generate_mock_content { role := "Engineer", keywords := some "Go" } =
      generate_mock_content { role := "Engineer", keywords := some "Go" } :=
  claim_C4 _ _ rfl rfl rfl rfl rfl rfl

/-- C5: for every role and current-skills list, the suggestions contain no
element of the current-skills list and number at most 10. -/
theorem claim_C5 (role : String) (current_skills : List String) :
    (∀ s ∈ suggest_skills role current_skills, s ∉ current_skills)
    ∧ (suggest_skills role current_skills).length ≤ 10 := by
  unfold suggest_skills
  constructor
  · intro s hs
    have hs1 := List.take_subset 10 _ hs
    have hs2 := (List.mem_filter.mp hs1).2
    exact of_decide_eq_true hs2
  · exact List.length_take_le 10 _

/-- C6: rendering with a template identifier outside the fixed set
`{"modern", "classic"}` selects exactly the `"modern"` template, so any
rendering function produces the same HTML as for `"modern"`; no error path
exists. (`render` stands for `jinja2.Template(t).render(**data)` with the
request's field map folded in, so the statement is universal in the field
map.) -/
theorem claim_C6 (render : String → String) (template_name : String)
    (h1 : template_name ≠ "modern") (h2 : template_name ≠ "classic") :
    export_pdf_html render template_name = export_pdf_html render "modern" := by
  have e1 : (template_name == "modern") = false := beq_eq_false_iff_ne.mpr h1
  have e2 : (template_name == "classic") = false := beq_eq_false_iff_ne.mpr h2
  simp [export_pdf_html, select_template, RESUME_TEMPLATES, List.lookup, e1, e2]

/-- Witness for C6 at the concrete unknown identifier `"fancy"`. -/
theorem claim_C6_witness :
    export_pdf_html id "fancy" = export_pdf_html id "modern" :=
  claim_C6 id "fancy" (by decide) (by decide)

/-- C8: with no provider configured, the request with role
`"Software Engineer"` and keywords `"Go,Docker"` (all other fields defaulted)
yields a summary containing `"Software Engineer"` and a skills list starting
with `"Go"`, `"Docker"`. -/
theorem claim_C8 :
    strContainsSub
        (generate_mock_content
          { role := "Software Engineer", keywords := some "Go,Docker" }).summary
        "Software Engineer" = true
    ∧ (generate_mock_content
        { role := "Software Engineer", keywords := some "Go,Docker" }).skills[0]?
        = some "Go"
    ∧ (generate_mock_content
        { role := "Software Engineer", keywords := some "Go,Docker" }).skills[1]?
        = some "Docker" := by
  decide

/-! ## C7: the spec-side description of the summary heuristic.
These definitions follow the wording of the (amended) claim, to be compared
with `extract_summary`, which is translated from the source. -/

/-- Claim wording: the line contains one of the keywords summary, objective,
profile, about as a case-insensitive substring. -/
def spec_kw_hit (line : String) : Bool :=
  strContainsSub (pyLower line) "summary" ||
    strContainsSub (pyLower line) "objective" ||
    strContainsSub (pyLower line) "profile" ||
    strContainsSub (pyLower line) "about"

/-- Claim wording: the lines after the first keyword line, when one exists. -/
def spec_after_kw : List String → Option (List String)
  | [] => none
  | l :: ls => if spec_kw_hit l then some ls else spec_after_kw ls

/-- Claim wording: the first 100 whitespace-separated tokens of the whole
text, joined by single spaces. -/
def spec_fallback (content : String) : String :=
  String.intercalate " " ((pySplit content).take 100)

/-- Claim wording (amended): if some line contains a keyword, the summary is
the space-joined stripped non-empty lines among the 3 lines following the
first such line, truncated to 500 characters — unless that join is empty, in
which case (as when no keyword line exists) the 100-token fallback is used. -/
def spec_summary (content : String) : String :=
  match spec_after_kw (splitChar '\n' content) with
  | none => spec_fallback content
  | some rest =>
    let j := pyTake (String.intercalate " "
      (((rest.take 3).map pyStrip).filter (fun l => !(l == "")))) 500
    if j = "" then spec_fallback content else j

theorem spec_kw_hit_eq (line : String) :
    spec_kw_hit line = is_summary_header line := by
  simp [spec_kw_hit, is_summary_header, summary_keywords, Bool.or_assoc]

theorem spec_after_kw_eq (lines : List String) :
    spec_after_kw lines =
      (find_summary_idx lines).map (fun i => lines.drop (i + 1)) := by
  induction lines with
  | nil => rfl
  | cons l ls ih =>
    by_cases h : is_summary_header l = true
    · simp [spec_after_kw, find_summary_idx, spec_kw_hit_eq, h]
    · simp only [spec_after_kw, find_summary_idx, spec_kw_hit_eq, h, if_false,
        Bool.false_eq_true, ite_false, ih]
      cases hfi : find_summary_idx ls with
      | none => simp
      | some i => simp [List.drop_succ_cons]

theorem strip_nonblank_eq (ls : List String) :
    strip_nonblank ls = (ls.map pyStrip).filter (fun l => !(l == "")) := by
  induction ls with
  | nil => rfl
  | cons a as ih =>
    by_cases h : pyStrip a = "" <;>
      simp [strip_nonblank, List.filterMap_cons, List.filter_cons, h, ih,
        beq_iff_eq] <;>
      simpa [strip_nonblank] using ih

/-- C7 (counterexample): on the single-line text `"Summary:"` a keyword line
exists, and the claim then demands the summary be the (empty) concatenation
of the following non-empty lines — but the code falls back to the first 100
tokens of the whole text and returns `"Summary:"`. -/
theorem claim_C7_counterexample :
    find_summary_idx (splitChar '\n' "Summary:") = some 0
    ∧ extract_summary "Summary:" ≠
        pyTake (String.intercalate " "
          (summary_window (splitChar '\n' "Summary:") 0)) 500 := by
  decide

/-- C7 (amended): the extracted summary equals the spec-side description with
the one correction the counterexample forces: when a keyword line is found
but the join of the stripped non-empty lines among the next 3 lines is empty,
the 100-token fallback applies, exactly as when no keyword line exists. -/
theorem claim_C7 (content : String) :
    extract_summary content = spec_summary content := by
  unfold extract_summary spec_summary
  rw [spec_after_kw_eq]
  cases hfi : find_summary_idx (splitChar '\n' content) with
  | none => simp [hfi, spec_fallback]
  | some i =>
    simp only [hfi, Option.map_some', summary_window, strip_nonblank_eq,
      spec_fallback]

/-- Witness for C7 at a concrete input with a keyword section. -/
theorem claim_C7_witness :
    extract_summary "Profile\nSeasoned developer.\n\nSkills" =
      spec_summary "Profile\nSeasoned developer.\n\nSkills" :=
  claim_C7 "Profile\nSeasoned developer.\n\nSkills"

theorem pyTruthy_false_iff (v : Option String) :
    pyTruthy v = false ↔ (v = none ∨ v = some "") := by
  rcases v with _ | s
  · simp [pyTruthy]
  · by_cases hs : s = "" <;> simp [pyTruthy, hs]

/-- C9: the generate endpoint answers 400 with its static message exactly
when the body's role value is absent or empty, and the extract endpoint
answers 400 with its static message exactly when the content value is absent
or empty; in every other case neither endpoint produces an error on this
path. -/
theorem claim_C9 (data : GenerateBody) (content : Option String) :
    ((generate_content data = Except.error (400, "Role is required"))
        ↔ (data.role = none ∨ data.role = some ""))
    ∧ ((∃ e, generate_content data = Except.error e)
        ↔ (data.role = none ∨ data.role = some ""))
    ∧ ((extract_from_document content = Except.error (400, "No content provided"))
        ↔ (content = none ∨ content = some ""))
    ∧ ((∃ e, extract_from_document content = Except.error e)
        ↔ (content = none ∨ content = some "")) := by
  obtain ⟨r, cB, kB, lB, iB, tB⟩ := data
  refine ⟨?_, ?_, ?_, ?_⟩
  · rcases r with _ | s
    · simp [generate_content, pyTruthy]
    · by_cases hs : s = "" <;> simp [generate_content, pyTruthy, hs]
  · rcases r with _ | s
    · simp [generate_content, pyTruthy]
    · by_cases hs : s = "" <;> simp [generate_content, pyTruthy, hs]
  · rcases content with _ | t
    · simp [extract_from_document, pyTruthy]
    · by_cases ht : t = "" <;> simp [extract_from_document, pyTruthy, ht]
  · rcases content with _ | t
    · simp [extract_from_document, pyTruthy]
    · by_cases ht : t = "" <;> simp [extract_from_document, pyTruthy, ht]
